import Mathlib

set_option maxHeartbeats 1000000

/-!
Shallow embedding of the auth backend in src/main.py (FastAPI + MongoDB +
passlib bcrypt + PyJWT).  Time is modelled as seconds since the epoch
(`Nat`); each request handler executes at a single instant `now`.
External collaborators that are not part of this repository are passed in
as function parameters, with concrete instances provided for evaluation:
  - `hashF` models `passlib`'s salted `CryptContext.hash` (src/main.py:31-32);
    the salt drawn inside the library is an explicit argument;
  - `verifyF` models `CryptContext.verify` (src/main.py:35-36); the result
    `none` models the exception `passlib` raises when the digest format
    cannot be identified, `some b` an ordinary boolean verification result;
  - `mac` models the HS256 signature computed by `jwt.encode`/`jwt.decode`
    over the payload fields and expiry with the server secret;
  - `parseTok` models deserialization of a compact JWT string back into its
    decoded form, `none` meaning the string is not a parseable JWT.
The document store (MongoDB) is modelled as in-memory lists in insertion
(natural) order, with `insert_one` appending, `find_one` returning the
first match, and `find_one` with a descending sort returning a document
with maximal sort key.
-/

/-- HTTP-level outcome of a handler: a success value, an
`HTTPException status detail`, or an unhandled exception escaping the
handler, which FastAPI turns into a 500 response. -/
inductive Outcome (α : Type) where
  | ok (a : α)
  | err (status : Nat) (detail : String)
  | crash
deriving DecidableEq

/-- The HTTP status of an error outcome, if the outcome is an error. -/
def Outcome.status? {α : Type} : Outcome α → Option Nat
  | .err st _ => some st
  | _ => none

/-- Whether the handler returned a success (2xx) response. -/
def Outcome.isOk {α : Type} : Outcome α → Bool
  | .ok _ => true
  | _ => false

/-- The claims of interest carried in a JWT payload: the code only ever
writes and reads the string fields `user_id` and `email`
(src/main.py:57-58, 176, 196). A missing or otherwise falsy field is
modelled as the empty string. -/
structure JwtClaims where
  user_id : String
  email : String
deriving DecidableEq

/-- Decoded form of a signed token: the payload fields, the absolute
expiry (the `exp` registered claim) and the signature. -/
structure Token where
  user_id : String
  email : String
  exp : Nat
  sig : String
deriving DecidableEq

/-- Type of the HS256 signing function: secret, user_id, email, exp. -/
abbrev MacFun := String → String → String → Nat → String

/-- Type of the salted hashing function: secret and per-call salt. -/
abbrev HashFun := String → Nat → String

/-- Type of the digest verification function; `none` models the
exception raised on an unidentifiable digest format. -/
abbrev VerifyFun := String → String → Option Bool

/-- Type of the JWT string deserializer. -/
abbrev ParseFun := String → Option Token

/-- `create_jwt` (src/main.py:39-42): absolute expiry `now` plus
`expires_minutes` minutes, signed with the server secret. -/
def create_jwt (mac : MacFun) (secret : String) (now : Nat)
    (payload : JwtClaims) (expires_minutes : Nat) : Token :=
  { user_id := payload.user_id
    email := payload.email
    exp := now + expires_minutes * 60
    sig := mac secret payload.user_id payload.email (now + expires_minutes * 60) }

/-- `decode_jwt` (src/main.py:45-46): `jwt.decode` verifies the signature
against the server secret and the `exp` claim; PyJWT treats the token as
expired when `exp` is less than or equal to the current time. Failure is
an exception in the code, modelled as `none`. -/
def decode_jwt (mac : MacFun) (secret : String) (now : Nat) (t : Token) :
    Option JwtClaims :=
  if t.sig = mac secret t.user_id t.email t.exp then
    if t.exp ≤ now then none
    else some { user_id := t.user_id, email := t.email }
  else none

/-- Whitespace characters recognized by Python's `str.split()`. -/
def isWs (c : Char) : Bool :=
  c = ' ' || c = '\t' || c = '\n' || c = '\x0d' || c = '\x0b' || c = '\x0c'

/-- Helper for `pySplit`: accumulates the current word in reverse. -/
def splitWsAux : List Char → List Char → List String
  | [], acc => if acc.isEmpty then [] else [String.mk acc.reverse]
  | c :: cs, acc =>
    if isWs c then
      if acc.isEmpty then splitWsAux cs [] else String.mk acc.reverse :: splitWsAux cs []
    else splitWsAux cs (c :: acc)

/-- Python's `str.split()` with no arguments (src/main.py:53): split on
runs of whitespace, discarding empty pieces. -/
def pySplit (s : String) : List String := splitWsAux s.data []

/-- ASCII lowercasing of one character, as Python's `str.lower()` does on
ASCII scheme words. -/
def lowerChar (c : Char) : Char :=
  if 'A' ≤ c ∧ c ≤ 'Z' then Char.ofNat (c.toNat + 32) else c

/-- Python's `str.lower()` restricted to ASCII (src/main.py:54). -/
def lowerStr (s : String) : String := String.mk (s.data.map lowerChar)

/-- `get_current_user` (src/main.py:49-63): FastAPI yields `none` when the
`Authorization` header is absent; an empty header string is also falsy in
Python and hits the same 401. The header must split into exactly two
whitespace-separated parts (tuple unpacking of `authorization.split()`
raises otherwise), the scheme must be case-insensitively `bearer`, the
token must decode, and the `user_id` and `email` claims must be truthy;
every failure inside the `try` collapses to a 401. -/
def get_current_user (mac : MacFun) (secret : String) (now : Nat)
    (parseTok : ParseFun) (authorization : Option String) : Outcome JwtClaims :=
  match authorization with
  | none => .err 401 "Missing Authorization header"
  | some a =>
    if a = "" then .err 401 "Missing Authorization header"
    else
      match pySplit a with
      | [scheme, tok] =>
        if lowerStr scheme ≠ "bearer" then .err 401 "Invalid or expired token"
        else
          match parseTok tok with
          | none => .err 401 "Invalid or expired token"
          | some t =>
            match decode_jwt mac secret now t with
            | none => .err 401 "Invalid or expired token"
            | some payload =>
              if payload.user_id = "" ∨ payload.email = "" then
                .err 401 "Invalid or expired token"
              else .ok payload
      | _ => .err 401 "Invalid or expired token"

/-- A document of the `users` collection (schemas.py:11-18); `id` is the
string form of the Mongo `_id`, as the code only ever uses `str(user` and
then `)` around `_id`. The `password` field is optional because the code
reads it defensively with a default (src/main.py:162). -/
structure UserDoc where
  id : String
  name : String
  email : String
  password : Option String
  is_verified : Bool
  created_at : Nat
  updated_at : Nat
deriving DecidableEq

/-- A document of the `otp_codes` collection (schemas.py:55-59); `otp` is
the stored digest and both it and `expires_at` are read defensively with
`.get` in src/main.py:187-190. -/
structure OtpDoc where
  email : String
  otp : Option String
  created_at : Nat
  expires_at : Option Nat
deriving DecidableEq

/-- A document of the `conversations` collection (schemas.py:20-25),
restricted to the fields the listing endpoint touches. -/
structure ConvDoc where
  id : String
  user_id : String
  title : String
  updated_at : Nat
deriving DecidableEq

/-- Output form of a conversation: the loop in src/main.py:222-223 moves
`_id` into a string field `id`. -/
structure ConvOut where
  id : String
  user_id : String
  title : String
  updated_at : Nat
deriving DecidableEq

/-- The document store: the three collections the handlers touch, each a
list in insertion order. -/
structure Store where
  users : List UserDoc
  otp_codes : List OtpDoc
  conversations : List ConvDoc
deriving DecidableEq

/-- The public user projection returned by login and verify-otp
(src/main.py:177, 197). -/
structure PublicUser where
  id : String
  name : String
  email : String
deriving DecidableEq

/-- Mongo `find_one` on an email filter: the first document in natural
(insertion) order whose email matches (src/main.py:130, 159, 195, 203). -/
def findUserByEmail : List UserDoc → String → Option UserDoc
  | [], _ => none
  | u :: us, e => if u.email = e then some u else findUserByEmail us e

/-- Mongo `find_one` with `sort` on `created_at` descending, applied to a
pre-filtered list: a document with maximal `created_at`.  Mongo leaves the
choice among tied documents unspecified; the model keeps the
earliest-inserted of the tied ones. -/
def pickLatest : List OtpDoc → Option OtpDoc
  | [] => none
  | r :: rs =>
    match pickLatest rs with
    | none => some r
    | some b => some (if r.created_at < b.created_at then b else r)

/-- The lookup in src/main.py:183: latest challenge for an email. -/
def findLatestOtp (l : List OtpDoc) (e : String) : Option OtpDoc :=
  pickLatest (l.filter (fun r => r.email == e))

/-- Mongo `update_one` on the email filter with a set of `is_verified`
and `updated_at` (src/main.py:194): updates the first matching document
only. -/
def markVerifiedFirst : List UserDoc → String → Nat → List UserDoc
  | [], _, _ => []
  | u :: us, e, now =>
    if u.email = e then { u with is_verified := true, updated_at := now } :: us
    else u :: markVerifiedFirst us e now

/-- The OTP document inserted on signup, unverified login and resend
(src/main.py:146-152, 167-173, 207-213): fixed raw code "123456" stored
hashed, expiry 5 minutes (300 seconds) after creation. -/
def newOtpDoc (hashF : HashFun) (email : String) (now salt : Nat) : OtpDoc :=
  { email := email
    otp := some (hashF "123456" salt)
    created_at := now
    expires_at := some (now + 300) }

/-- Success body of the signup endpoint (src/main.py:154). -/
structure SignupResult where
  success : Bool
  message : String
  email : String
deriving DecidableEq

/-- `signup` (src/main.py:127-154): duplicate-email check, then user
creation and OTP issuance. `newId` is the `_id` Mongo assigns on insert;
`saltPw` and `saltOtp` are the salts passlib draws for the two hash
calls. -/
def signup (hashF : HashFun) (s : Store) (name email password : String)
    (now : Nat) (newId : String) (saltPw saltOtp : Nat) :
    Outcome SignupResult × Store :=
  match findUserByEmail s.users email with
  | some _ => (.err 400 "Email already registered", s)
  | none =>
    let user : UserDoc :=
      { id := newId
        name := name
        email := email
        password := some (hashF password saltPw)
        is_verified := false
        created_at := now
        updated_at := now }
    (.ok { success := true, message := "OTP sent to email", email := email },
     { s with
        users := s.users ++ [user]
        otp_codes := s.otp_codes ++ [newOtpDoc hashF email now saltOtp] })

/-- Success body of the login endpoint: either the unverified branch
("OTP sent to email", no token, src/main.py:174) or the verified branch
with token and public user (src/main.py:176-178). -/
inductive LoginResult where
  | otpSent
  | loggedIn (token : Token) (u : PublicUser)
deriving DecidableEq

/-- `login` (src/main.py:157-178). A `verifyF` result of `none` is the
passlib exception escaping the handler. -/
def login (hashF : HashFun) (verifyF : VerifyFun) (mac : MacFun)
    (secret : String) (s : Store) (email password : String)
    (now saltOtp : Nat) : Outcome LoginResult × Store :=
  match findUserByEmail s.users email with
  | none => (.err 400 "Invalid credentials", s)
  | some user =>
    match verifyF password (user.password.getD "") with
    | none => (.crash, s)
    | some false => (.err 400 "Invalid credentials", s)
    | some true =>
      if user.is_verified = false then
        (.ok .otpSent,
         { s with otp_codes := s.otp_codes ++ [newOtpDoc hashF email now saltOtp] })
      else
        (.ok (.loggedIn
            (create_jwt mac secret now { user_id := user.id, email := user.email } 1440)
            { id := user.id, name := user.name, email := user.email }), s)

/-- Success body of the verify-otp endpoint (src/main.py:198). -/
structure VerifyOtpResult where
  token : Token
  user : PublicUser
deriving DecidableEq

/-- The expiry test in src/main.py:187: Python's
`record.get and record lt now` conjunction — a challenge with no
`expires_at` never trips it, one with an expiry trips it only when the
expiry is strictly before `now`. -/
def otpExpiredAt (now : Nat) (r : OtpDoc) : Bool :=
  match r.expires_at with
  | some e => decide (e < now)
  | none => false

/-- `verify_otp` (src/main.py:181-198): latest challenge for the email,
expiry check (expired only when `expires_at` is present and strictly
before `now`), digest verification, then the first matching user is
marked verified and a token is issued.  If no user document matches the
email, `find_one` yields `None` and the subscript on it raises, modelled
as `.crash`. -/
def verify_otp (verifyF : VerifyFun) (mac : MacFun) (secret : String)
    (s : Store) (email otp : String) (now : Nat) :
    Outcome VerifyOtpResult × Store :=
  match findLatestOtp s.otp_codes email with
  | none => (.err 400 "OTP not found", s)
  | some record =>
    if otpExpiredAt now record then
      (.err 400 "OTP expired", s)
    else
      match verifyF otp (record.otp.getD "") with
      | none => (.crash, s)
      | some false => (.err 400 "Invalid OTP", s)
      | some true =>
        let users2 := markVerifiedFirst s.users email now
        let s2 : Store := { s with users := users2 }
        match findUserByEmail users2 email with
        | none => (.crash, s2)
        | some u =>
          (.ok { token := create_jwt mac secret now
                    { user_id := u.id, email := u.email } 1440
                 user := { id := u.id, name := u.name, email := u.email } }, s2)

/-- `resend_otp` (src/main.py:201-214): unknown email is rejected,
otherwise a fresh challenge is appended unconditionally. -/
def resend_otp (hashF : HashFun) (s : Store) (email : String)
    (now saltOtp : Nat) : Outcome String × Store :=
  match findUserByEmail s.users email with
  | none => (.err 400 "Email not registered", s)
  | some _ =>
    (.ok "OTP sent",
     { s with otp_codes := s.otp_codes ++ [newOtpDoc hashF email now saltOtp] })

/-- Insertion step for the descending sort on `updated_at`. -/
def insertByUpdatedDesc (c : ConvDoc) : List ConvDoc → List ConvDoc
  | [] => [c]
  | x :: xs =>
    if c.updated_at ≤ x.updated_at then x :: insertByUpdatedDesc c xs
    else c :: x :: xs

/-- Mongo `.sort` on `updated_at` descending (src/main.py:221). -/
def sortUpdatedDesc (l : List ConvDoc) : List ConvDoc :=
  l.foldr insertByUpdatedDesc []

/-- The per-item rewrite in src/main.py:222-223: `_id` becomes the string
field `id`. -/
def convToOut (c : ConvDoc) : ConvOut :=
  { id := c.id, user_id := c.user_id, title := c.title, updated_at := c.updated_at }

/-- `list_conversations` (src/main.py:218-224): the dependency on
`get_current_user` runs first; on success the caller's conversations are
returned sorted by `updated_at` descending. -/
def list_conversations (mac : MacFun) (secret : String) (now : Nat)
    (parseTok : ParseFun) (s : Store) (authorization : Option String) :
    Outcome (List ConvOut) × Store :=
  match get_current_user mac secret now parseTok authorization with
  | .err st d => (.err st d, s)
  | .crash => (.crash, s)
  | .ok payload =>
    (.ok ((sortUpdatedDesc
        (s.conversations.filter (fun c => c.user_id == payload.user_id))).map convToOut),
     s)

/-- Whether a challenge is still acceptable at `now` under the code's
comparison: a challenge with an expiry is past only strictly after the
expiry instant; a challenge without an expiry never expires. -/
def unexpiredAt (now : Nat) (r : OtpDoc) : Bool :=
  match r.expires_at with
  | some e => now ≤ e
  | none => true

/-- Whether a challenge is still acceptable at `now` under the spec's
words: "fails with Expired if current time ≥ its expiry", i.e. a
challenge is unexpired only strictly before the expiry instant. -/
def strictUnexpiredAt (now : Nat) (r : OtpDoc) : Bool :=
  match r.expires_at with
  | some e => now < e
  | none => true

/-- Most recently created challenge for an email among those not yet past
expiry under the code's comparison. -/
def latestUnexpired (l : List OtpDoc) (e : String) (now : Nat) : Option OtpDoc :=
  findLatestOtp (l.filter (unexpiredAt now)) e

/-- Modelled from the spec: most recently created challenge for an email
among those unexpired in the strict sense of the spec's words ("fails
with Expired if current time ≥ its expiry"), for comparison against the
code's behavior. -/
def latestUnexpiredStrict (l : List OtpDoc) (e : String) (now : Nat) : Option OtpDoc :=
  findLatestOtp (l.filter (strictUnexpiredAt now)) e

/-- Concrete stand-in for a passlib bcrypt digest, used to evaluate the
theorems on closed inputs: the digest embeds the salt and the secret. -/
def bhash (secret : String) (salt : Nat) : String :=
  "$2b$" ++ toString salt ++ "$" ++ secret

/-- Concrete stand-in for `CryptContext.verify`: a digest that does not
carry the recognized prefix is unidentifiable, which passlib reports by
raising (here `none`); otherwise compare the embedded secret. -/
def bverify (plain digest : String) : Option Bool :=
  match digest.data with
  | '$' :: '2' :: 'b' :: '$' :: rest =>
    some (plain.data == (rest.dropWhile (fun c => c ≠ '$')).drop 1)
  | _ => none

/-- Concrete stand-in for the HS256 signature, for evaluation. -/
def macSig (secret uid em : String) (exp : Nat) : String :=
  "sig:" ++ secret ++ ":" ++ uid ++ ":" ++ em ++ ":" ++ toString exp

/-- A token issued at time 0 with a 60-minute ttl, for evaluation. -/
def tokC1 : Token := create_jwt macSig "k1" 0 { user_id := "u1", email := "a@b.c" } 60

/-- A token whose signature does not verify under secret "k1". -/
def badTokC1 : Token := { user_id := "u1", email := "a@b.c", exp := 999999, sig := "nope" }

/-- Concrete deserializer recognizing the two tokens above. -/
def ptokC1 : ParseFun := fun s =>
  if s = "tkn1" then some tokC1 else if s = "bad1" then some badTokC1 else none

/-- Store with one unverified user and one live challenge, for evaluation. -/
def storeW2 : Store :=
  { users := [{ id := "u2", name := "B", email := "b@x.y",
                password := some (bhash "pw2" 3), is_verified := false,
                created_at := 0, updated_at := 0 }]
    otp_codes := [{ email := "b@x.y", otp := some (bhash "123456" 5),
                    created_at := 10, expires_at := some 310 }]
    conversations := [] }

/-- Store whose only challenge expires at time 500, for evaluation. -/
def storeC2x : Store :=
  { users := [{ id := "u2x", name := "C", email := "m@n.o",
                password := some (bhash "pw" 1), is_verified := false,
                created_at := 0, updated_at := 0 }]
    otp_codes := [{ email := "m@n.o", otp := some (bhash "123456" 2),
                    created_at := 200, expires_at := some 500 }]
    conversations := [] }

/-- Store whose only challenge expires at time 310, for evaluation. -/
def storeW3 : Store :=
  { users := [{ id := "u3", name := "D", email := "c@d.e",
                password := some (bhash "pw3" 4), is_verified := false,
                created_at := 0, updated_at := 0 }]
    otp_codes := [{ email := "c@d.e", otp := some (bhash "123456" 6),
                    created_at := 10, expires_at := some 310 }]
    conversations := [] }

/-- Store whose only challenge expires at time 420, for evaluation. -/
def storeC3x : Store :=
  { users := [{ id := "u3x", name := "E", email := "p@q.r",
                password := some (bhash "pw" 1), is_verified := false,
                created_at := 0, updated_at := 0 }]
    otp_codes := [{ email := "p@q.r", otp := some (bhash "123456" 8),
                    created_at := 120, expires_at := some 420 }]
    conversations := [] }

/-- Store with one user with a well-formed digest, for evaluation. -/
def storeW4 : Store :=
  { users := [{ id := "u4", name := "F", email := "f@x.y",
                password := some (bhash "pw4" 3), is_verified := true,
                created_at := 0, updated_at := 0 }]
    otp_codes := []
    conversations := [] }

/-- Store with one registered user, for evaluation. -/
def storeW5 : Store :=
  { users := [{ id := "u5", name := "G", email := "g@x.y",
                password := some (bhash "pw5" 3), is_verified := false,
                created_at := 0, updated_at := 0 }]
    otp_codes := []
    conversations := [] }

/-- Store whose user has an empty (unidentifiable) stored digest and
whose challenge likewise stores an empty digest, the failing input of the
crash scenario. -/
def storeC6 : Store :=
  { users := [{ id := "u6", name := "H", email := "f@g.h",
                password := some "", is_verified := true,
                created_at := 0, updated_at := 0 }]
    otp_codes := [{ email := "f@g.h", otp := some "",
                    created_at := 0, expires_at := some 300 }]
    conversations := [] }

/-- Store with one unverified user and a pre-existing challenge, for
evaluation of the issuance sites. -/
def storeW7 : Store :=
  { users := [{ id := "u7", name := "I", email := "i@x.y",
                password := some (bhash "pw7" 3), is_verified := false,
                created_at := 0, updated_at := 0 }]
    otp_codes := [{ email := "i@x.y", otp := some (bhash "123456" 9),
                    created_at := 1, expires_at := some 301 }]
    conversations := [] }

/-- Store with one already-verified user, for evaluation. -/
def storeW8 : Store :=
  { users := [{ id := "u8", name := "J", email := "j@x.y",
                password := some (bhash "pw8" 3), is_verified := true,
                created_at := 0, updated_at := 0 }]
    otp_codes := []
    conversations := [] }

/-- A token for user "u1" under secret "k9", for evaluation. -/
def tokC9 : Token := create_jwt macSig "k9" 0 { user_id := "u1", email := "a@b.c" } 60

/-- Concrete deserializer recognizing `tokC9`. -/
def ptokC9 : ParseFun := fun s => if s = "tkn9" then some tokC9 else none

/-- Store with conversations of two users, for evaluation. -/
def storeW9 : Store :=
  { users := []
    otp_codes := []
    conversations :=
      [ { id := "c1", user_id := "u1", title := "t1", updated_at := 50 },
        { id := "c2", user_id := "u2", title := "t2", updated_at := 60 },
        { id := "c3", user_id := "u1", title := "t3", updated_at := 70 } ] }

/-- An empty pick means the filtered collection was empty. -/
theorem pickLatest_none_iff (l : List OtpDoc) : pickLatest l = none ↔ l = [] := by
  induction l with
  | nil => simp [pickLatest]
  | cons r rs ih =>
    simp only [pickLatest]
    cases hrs : pickLatest rs with
    | none => simp
    | some b => simp

/-- The picked document is in the collection. -/
theorem pickLatest_mem : ∀ (l : List OtpDoc) (r : OtpDoc), pickLatest l = some r → r ∈ l
  | [], r, h => by simp [pickLatest] at h
  | a :: as, r, h => by
    simp only [pickLatest] at h
    cases has : pickLatest as with
    | none =>
      rw [has] at h
      cases h
      exact List.mem_cons_self a as
    | some b =>
      rw [has] at h
      cases h
      by_cases hc : a.created_at < b.created_at
      · rw [if_pos hc]
        exact List.mem_cons_of_mem a (pickLatest_mem as b has)
      · rw [if_neg hc]
        exact List.mem_cons_self a as

/-- The picked document has maximal creation time. -/
theorem pickLatest_max : ∀ (l : List OtpDoc) (r : OtpDoc), pickLatest l = some r →
    ∀ x ∈ l, x.created_at ≤ r.created_at
  | [], r, h => by simp [pickLatest] at h
  | a :: as, r, h => by
    simp only [pickLatest] at h
    cases has : pickLatest as with
    | none =>
      rw [has] at h
      cases h
      intro x hx
      rcases List.mem_cons.1 hx with rfl | hxas
      · exact le_refl _
      · rw [(pickLatest_none_iff as).1 has] at hxas
        exact absurd hxas (List.not_mem_nil x)
    | some b =>
      rw [has] at h
      cases h
      intro x hx
      rcases List.mem_cons.1 hx with rfl | hxas
      · by_cases hc : x.created_at < b.created_at
        · rw [if_pos hc]
          exact le_of_lt hc
        · rw [if_neg hc]
      · have hxb := pickLatest_max as b has x hxas
        by_cases hc : a.created_at < b.created_at
        · rw [if_pos hc]
          exact hxb
        · rw [if_neg hc]
          exact le_trans hxb (le_of_not_lt hc)

/-- A document that is strictly latest among all others is the one
picked. -/
theorem pickLatest_uniq : ∀ (l : List OtpDoc) (r : OtpDoc), r ∈ l →
    (∀ x ∈ l, x = r ∨ x.created_at < r.created_at) → pickLatest l = some r
  | [], r, hr, _ => absurd hr (List.not_mem_nil r)
  | a :: as, r, hr, hmax => by
    simp only [pickLatest]
    rcases List.mem_cons.1 hr with rfl | hras
    · cases has : pickLatest as with
      | none => rfl
      | some b =>
        show some (if r.created_at < b.created_at then b else r) = some r
        have hb := pickLatest_mem as b has
        rcases hmax b (List.mem_cons_of_mem _ hb) with rfl | hlt
        · rw [if_neg (lt_irrefl _)]
        · rw [if_neg (not_lt.2 (le_of_lt hlt))]
    · have has : pickLatest as = some r :=
        pickLatest_uniq as r hras (fun x hx => hmax x (List.mem_cons_of_mem _ hx))
      rw [has]
      show some (if a.created_at < r.created_at then r else a) = some r
      rcases hmax a (List.mem_cons_self a as) with rfl | hlt
      · rw [if_neg (lt_irrefl _)]
      · rw [if_pos hlt]

/-- Marking the first user with an email verified is visible to a
subsequent first-match lookup with the same email. -/
theorem markVerifiedFirst_find : ∀ (us : List UserDoc) (e : String) (now : Nat) (u : UserDoc),
    findUserByEmail us e = some u →
    findUserByEmail (markVerifiedFirst us e now) e
      = some { u with is_verified := true, updated_at := now }
  | [], e, now, u, h => by simp [findUserByEmail] at h
  | a :: as, e, now, u, h => by
    by_cases ha : a.email = e
    · rw [findUserByEmail, if_pos ha] at h
      cases h
      rw [markVerifiedFirst, if_pos ha, findUserByEmail, if_pos ha]
    · rw [findUserByEmail, if_neg ha] at h
      rw [markVerifiedFirst, if_neg ha, findUserByEmail, if_neg ha]
      exact markVerifiedFirst_find as e now u h

/-- Every error the session guard produces carries HTTP status 401. -/
theorem get_current_user_err_status (mac : MacFun) (secret : String) (now : Nat)
    (parseTok : ParseFun) (auth : Option String) (st : Nat) (d : String)
    (h : get_current_user mac secret now parseTok auth = .err st d) : st = 401 := by
  unfold get_current_user at h
  rcases auth with _ | a
  · injection h with h1 _
    exact h1.symm
  · repeat' split at h
    all_goals first
      | (injection h with h1 _; exact h1.symm)
      | (simp at h)

/-- Membership through one insertion step of the descending sort. -/
theorem mem_insertByUpdatedDesc (c x : ConvDoc) : ∀ (l : List ConvDoc),
    x ∈ insertByUpdatedDesc c l ↔ x = c ∨ x ∈ l
  | [] => by simp [insertByUpdatedDesc]
  | a :: as => by
    simp only [insertByUpdatedDesc]
    by_cases hc : c.updated_at ≤ a.updated_at
    · rw [if_pos hc]
      rw [List.mem_cons, mem_insertByUpdatedDesc c x as, List.mem_cons]
      tauto
    · rw [if_neg hc]
      rw [List.mem_cons, List.mem_cons]

/-- Inserting into a descending-sorted list keeps it descending-sorted. -/
theorem pairwise_insertByUpdatedDesc (c : ConvDoc) : ∀ (l : List ConvDoc),
    l.Pairwise (fun a b => b.updated_at ≤ a.updated_at) →
    (insertByUpdatedDesc c l).Pairwise (fun a b => b.updated_at ≤ a.updated_at)
  | [], _ => by simp [insertByUpdatedDesc]
  | a :: as, hl => by
    rcases List.pairwise_cons.1 hl with ⟨ha, has⟩
    simp only [insertByUpdatedDesc]
    by_cases hc : c.updated_at ≤ a.updated_at
    · rw [if_pos hc]
      refine List.pairwise_cons.2 ⟨?_, pairwise_insertByUpdatedDesc c as has⟩
      intro b hb
      rcases (mem_insertByUpdatedDesc c b as).1 hb with rfl | hbas
      · exact hc
      · exact ha b hbas
    · rw [if_neg hc]
      refine List.pairwise_cons.2 ⟨?_, hl⟩
      intro b hb
      rcases List.mem_cons.1 hb with rfl | hbas
      · exact le_of_lt (lt_of_not_le hc)
      · exact le_trans (ha b hbas) (le_of_lt (lt_of_not_le hc))

/-- The descending sort on `updated_at` is descending-sorted. -/
theorem pairwise_sortUpdatedDesc : ∀ (l : List ConvDoc),
    (sortUpdatedDesc l).Pairwise (fun a b => b.updated_at ≤ a.updated_at)
  | [] => by simp [sortUpdatedDesc]
  | a :: as => pairwise_insertByUpdatedDesc a (sortUpdatedDesc as) (pairwise_sortUpdatedDesc as)

/-- The descending sort neither adds nor removes documents. -/
theorem mem_sortUpdatedDesc (x : ConvDoc) : ∀ (l : List ConvDoc),
    x ∈ sortUpdatedDesc l ↔ x ∈ l
  | [] => Iff.rfl
  | a :: as => by
    show x ∈ insertByUpdatedDesc a (sortUpdatedDesc as) ↔ x ∈ a :: as
    rw [mem_insertByUpdatedDesc, mem_sortUpdatedDesc x as, List.mem_cons]

/-- C4: for every email and password input to login, the case where no
user exists for the email and the case where the user exists but the
password does not verify both fail with the identical InvalidCredentials
error — HTTP 400 with the same message "Invalid credentials" and an
untouched store — so the two runs are indistinguishable to the caller. -/
theorem C4_login_invalid_credentials_indistinguishable
    (hashF : HashFun) (verifyF : VerifyFun) (mac : MacFun) (secret : String)
    (s : Store) (pw : String) (now saltOtp : Nat) :
    (∀ email, findUserByEmail s.users email = none →
      login hashF verifyF mac secret s email pw now saltOtp
        = (.err 400 "Invalid credentials", s))
    ∧ (∀ email u, findUserByEmail s.users email = some u →
      verifyF pw (u.password.getD "") = some false →
      login hashF verifyF mac secret s email pw now saltOtp
        = (.err 400 "Invalid credentials", s)) := by
  constructor
  · intro email h
    simp only [login, h]
  · intro email u h hv
    simp only [login, h, hv]

/-- C4 witness: the two failing runs on a concrete store produce the very
same response. -/
theorem C4_login_invalid_credentials_indistinguishable_witness :
    login bhash bverify macSig "k4" storeW4 "nobody@x.y" "pw4" 5 1
        = (.err 400 "Invalid credentials", storeW4)
    ∧ login bhash bverify macSig "k4" storeW4 "f@x.y" "wrongpw" 5 1
        = (.err 400 "Invalid credentials", storeW4) := by
  constructor
  · exact (C4_login_invalid_credentials_indistinguishable bhash bverify macSig "k4"
      storeW4 "pw4" 5 1).1 "nobody@x.y" (by decide)
  · exact (C4_login_invalid_credentials_indistinguishable bhash bverify macSig "k4"
      storeW4 "wrongpw" 5 1).2 "f@x.y"
      { id := "u4", name := "F", email := "f@x.y",
        password := some (bhash "pw4" 3), is_verified := true,
        created_at := 0, updated_at := 0 } (by decide) (by decide)

/-- C5: signup for an email that already has a user record fails with
DuplicateEmail (HTTP 400, "Email already registered") and returns the
store unchanged — no second user, no mutation of the existing user, no
OTP challenge inserted. -/
theorem C5_signup_duplicate_email_store_unchanged
    (hashF : HashFun) (s : Store) (name email password : String)
    (now : Nat) (newId : String) (saltPw saltOtp : Nat) (u : UserDoc)
    (h : findUserByEmail s.users email = some u) :
    signup hashF s name email password now newId saltPw saltOtp
      = (.err 400 "Email already registered", s) := by
  simp only [signup, h]

/-- C5 witness: duplicate signup on a concrete store. -/
theorem C5_signup_duplicate_email_store_unchanged_witness :
    signup bhash storeW5 "G2" "g@x.y" "other" 9 "u99" 1 2
      = (.err 400 "Email already registered", storeW5) :=
  C5_signup_duplicate_email_store_unchanged bhash storeW5 "G2" "g@x.y" "other" 9 "u99" 1 2
    { id := "u5", name := "G", email := "g@x.y",
      password := some (bhash "pw5" 3), is_verified := false,
      created_at := 0, updated_at := 0 } (by decide)

/-- C7: each OTP issuance site — signup, login of an unverified user, and
resend — appends exactly one new challenge whose expiry is its creation
time plus exactly 5 minutes (300 seconds), leaving every previously
stored challenge in place unmodified. -/
theorem C7_otp_issuance_appends_fresh_challenge
    (hashF : HashFun) (verifyF : VerifyFun) (mac : MacFun) (secret : String) (s : Store) :
    (∀ name email password now newId saltPw saltOtp,
      findUserByEmail s.users email = none →
      (signup hashF s name email password now newId saltPw saltOtp).2.otp_codes
        = s.otp_codes ++ [newOtpDoc hashF email now saltOtp])
    ∧ (∀ email pw now saltOtp u,
      findUserByEmail s.users email = some u →
      verifyF pw (u.password.getD "") = some true →
      u.is_verified = false →
      (login hashF verifyF mac secret s email pw now saltOtp).2.otp_codes
        = s.otp_codes ++ [newOtpDoc hashF email now saltOtp])
    ∧ (∀ email now saltOtp u,
      findUserByEmail s.users email = some u →
      (resend_otp hashF s email now saltOtp).2.otp_codes
        = s.otp_codes ++ [newOtpDoc hashF email now saltOtp])
    ∧ (∀ email now saltOtp,
      (newOtpDoc hashF email now saltOtp).expires_at
        = some ((newOtpDoc hashF email now saltOtp).created_at + 300)) := by
  refine ⟨?_, ?_, ?_, ?_⟩
  · intro name email password now newId saltPw saltOtp h
    simp only [signup, h]
  · intro email pw now saltOtp u h hv hu
    simp only [login, h, hv, hu, if_pos]
  · intro email now saltOtp u h
    simp only [resend_otp, h]
  · intro email now saltOtp
    rfl

/-- C7 witness: each of the three issuance sites on a concrete store
appends the expected challenge. -/
theorem C7_otp_issuance_appends_fresh_challenge_witness :
    (signup bhash storeW7 "K" "new@x.y" "npw" 40 "u77" 1 2).2.otp_codes
      = storeW7.otp_codes ++ [newOtpDoc bhash "new@x.y" 40 2]
    ∧ (login bhash bverify macSig "k7" storeW7 "i@x.y" "pw7" 41 4).2.otp_codes
      = storeW7.otp_codes ++ [newOtpDoc bhash "i@x.y" 41 4]
    ∧ (resend_otp bhash storeW7 "i@x.y" 42 5).2.otp_codes
      = storeW7.otp_codes ++ [newOtpDoc bhash "i@x.y" 42 5] := by
  refine ⟨?_, ?_, ?_⟩
  · exact (C7_otp_issuance_appends_fresh_challenge bhash bverify macSig "k7" storeW7).1
      "K" "new@x.y" "npw" 40 "u77" 1 2 (by decide)
  · exact (C7_otp_issuance_appends_fresh_challenge bhash bverify macSig "k7" storeW7).2.1
      "i@x.y" "pw7" 41 4
      { id := "u7", name := "I", email := "i@x.y",
        password := some (bhash "pw7" 3), is_verified := false,
        created_at := 0, updated_at := 0 } (by decide) (by decide) (by decide)
  · exact (C7_otp_issuance_appends_fresh_challenge bhash bverify macSig "k7" storeW7).2.2.1
      "i@x.y" 42 5
      { id := "u7", name := "I", email := "i@x.y",
        password := some (bhash "pw7" 3), is_verified := false,
        created_at := 0, updated_at := 0 } (by decide)

/-- C8: resend-otp fails with NotFound (HTTP 400, "Email not registered")
when no user record exists for the email, and otherwise unconditionally
appends a fresh challenge and returns success — in particular with no
check of the user's verification state. -/
theorem C8_resend_otp_notfound_or_unconditional_issue
    (hashF : HashFun) (s : Store) (email : String) (now saltOtp : Nat) :
    (findUserByEmail s.users email = none →
      resend_otp hashF s email now saltOtp = (.err 400 "Email not registered", s))
    ∧ (∀ u, findUserByEmail s.users email = some u →
      resend_otp hashF s email now saltOtp
        = (.ok "OTP sent",
           { s with otp_codes := s.otp_codes ++ [newOtpDoc hashF email now saltOtp] })) := by
  constructor
  · intro h
    simp only [resend_otp, h]
  · intro u h
    simp only [resend_otp, h]

/-- C8 witness: unknown email fails; an already-verified user still gets
a fresh challenge. -/
theorem C8_resend_otp_notfound_or_unconditional_issue_witness :
    resend_otp bhash storeW8 "ghost@x.y" 50 3 = (.err 400 "Email not registered", storeW8)
    ∧ resend_otp bhash storeW8 "j@x.y" 50 3
        = (.ok "OTP sent",
           { storeW8 with otp_codes := storeW8.otp_codes ++ [newOtpDoc bhash "j@x.y" 50 3] }) := by
  constructor
  · exact (C8_resend_otp_notfound_or_unconditional_issue bhash storeW8 "ghost@x.y" 50 3).1
      (by decide)
  · exact (C8_resend_otp_notfound_or_unconditional_issue bhash storeW8 "j@x.y" 50 3).2
      { id := "u8", name := "J", email := "j@x.y",
        password := some (bhash "pw8" 3), is_verified := true,
        created_at := 0, updated_at := 0 } (by decide)

/-- C6: the code, contrary to the claim, crashes rather than reporting a
verification failure when the stored digest is unidentifiable: with a
user and a challenge whose stored digests are the empty string, the
hasher raises (modelled as `none`), and both login and verify-otp let
that exception escape (HTTP 500), instead of the normal 400 failure. -/
theorem C6_malformed_digest_crashes :
    bverify "anypassword" "" = none
    ∧ (login bhash bverify macSig "k6" storeC6 "f@g.h" "anypassword" 0 0).1 = Outcome.crash
    ∧ (login bhash bverify macSig "k6" storeC6 "f@g.h" "anypassword" 0 0).1
        ≠ .err 400 "Invalid credentials"
    ∧ (verify_otp bverify macSig "k6" storeC6 "f@g.h" "123456" 0).1 = Outcome.crash := by
  decide

/-- When the Authorization header does not split into exactly two
whitespace-separated parts, the session guard answers 401: tuple
unpacking of the split raises, and the handler catches everything into a
401. -/
theorem auth_header_parts_ne_two_401
    (mac : MacFun) (secret : String) (now : Nat) (parseTok : ParseFun)
    (h : String) (hlen : (pySplit h).length ≠ 2) :
    (get_current_user mac secret now parseTok (some h)).status? = some 401 := by
  unfold get_current_user
  dsimp only
  by_cases h0 : h = ""
  · rw [if_pos h0]
    rfl
  · rw [if_neg h0]
    cases hsp : pySplit h with
    | nil => rfl
    | cons a l1 =>
      cases l1 with
      | nil => rfl
      | cons b l2 =>
        cases l2 with
        | nil =>
          exfalso
          apply hlen
          rw [hsp]
          rfl
        | cons c l3 => rfl

/-- C10: any Authorization header value that does not consist of exactly
two whitespace-separated parts — a bare scheme word, or a header with
trailing content — makes get_current_user fail with a 401 outcome,
whatever token material is embedded in it. -/
theorem C10_header_not_two_parts_401
    (mac : MacFun) (secret : String) (now : Nat) (parseTok : ParseFun)
    (h : String) (hlen : (pySplit h).length ≠ 2) :
    (get_current_user mac secret now parseTok (some h)).status? = some 401 :=
  auth_header_parts_ne_two_401 mac secret now parseTok h hlen

/-- C10 witness: a bare "Bearer" with no token, and a header with a valid
unexpired token followed by trailing content, both yield 401 even though
`ptokC1` parses the embedded token to a valid unexpired token. -/
theorem C10_header_not_two_parts_401_witness :
    (pySplit "Bearer").length ≠ 2
    ∧ (get_current_user macSig "k1" 100 ptokC1 (some "Bearer")).status? = some 401
    ∧ (pySplit "Bearer tkn1 extra").length ≠ 2
    ∧ (get_current_user macSig "k1" 100 ptokC1 (some "Bearer tkn1 extra")).status? = some 401 := by
  refine ⟨by decide, ?_, by decide, ?_⟩
  · exact C10_header_not_two_parts_401 macSig "k1" 100 ptokC1 "Bearer" (by decide)
  · exact C10_header_not_two_parts_401 macSig "k1" 100 ptokC1 "Bearer tkn1 extra" (by decide)

/-- C3 (amended): verification of the latest challenge fails Expired —
without consulting the hasher at all — exactly when the current time is
strictly greater than the challenge's expiry timestamp; at current time
less than or equal to the expiry (in particular exactly equal to it) the
challenge is not treated as expired and the handler proceeds to hash
comparison. -/
theorem C3_expiry_check_strictly_after
    (mac : MacFun) (secret : String) (s : Store) (email otp : String)
    (r : OtpDoc) (e : Nat)
    (hr : findLatestOtp s.otp_codes email = some r)
    (he : r.expires_at = some e) :
    (∀ now, e < now → ∀ verifyF : VerifyFun,
      (verify_otp verifyF mac secret s email otp now).1 = .err 400 "OTP expired")
    ∧ (∀ now, now ≤ e → ∀ verifyF : VerifyFun,
      (verify_otp verifyF mac secret s email otp now).1 ≠ .err 400 "OTP expired") := by
  constructor
  · intro now hlt verifyF
    have hex : otpExpiredAt now r = true := by
      simp [otpExpiredAt, he, hlt]
    simp only [verify_otp, hr, hex, if_true]
  · intro now hle verifyF
    have hex : otpExpiredAt now r = false := by
      simp only [otpExpiredAt, he, decide_eq_false_iff_not]
      omega
    simp only [verify_otp, hr, hex, Bool.false_eq_true, if_false]
    cases hv : verifyF otp (r.otp.getD "") with
    | none => simp
    | some b =>
      cases b with
      | false => simp
      | true =>
        cases hu : findUserByEmail (markVerifiedFirst s.users email now) email with
        | none => simp [hu]
        | some u => simp [hu]

/-- C3 witness: on a concrete store whose challenge expires at 310,
verification at time 400 fails Expired, and verification at time 310
(the boundary) does not fail Expired. -/
theorem C3_expiry_check_strictly_after_witness :
    (verify_otp bverify macSig "k3" storeW3 "c@d.e" "zzz" 400).1 = .err 400 "OTP expired"
    ∧ (verify_otp bverify macSig "k3" storeW3 "c@d.e" "123456" 310).1
        ≠ .err 400 "OTP expired" := by
  constructor
  · exact (C3_expiry_check_strictly_after macSig "k3" storeW3 "c@d.e" "zzz"
      { email := "c@d.e", otp := some (bhash "123456" 6),
        created_at := 10, expires_at := some 310 }
      310 (by decide) (by decide)).1 400 (by decide) bverify
  · exact (C3_expiry_check_strictly_after macSig "k3" storeW3 "c@d.e" "123456"
      { email := "c@d.e", otp := some (bhash "123456" 6),
        created_at := 10, expires_at := some 310 }
      310 (by decide) (by decide)).2 310 (by decide) bverify

/-- C3 counterexample: with the only challenge for the email expiring at
time 420 and a correct candidate code, verification at current time
exactly equal to the expiry timestamp does not fail Expired as the claim
states — the code proceeds to hash comparison and succeeds. -/
theorem C3_counterexample_equal_expiry_not_expired :
    (verify_otp bverify macSig "k3x" storeC3x "p@q.r" "123456" 420).1.isOk = true
    ∧ (verify_otp bverify macSig "k3x" storeC3x "p@q.r" "123456" 420).1
        ≠ .err 400 "OTP expired" := by
  decide

/-- C1: a token produced by create_jwt with nonempty user_id/email
claims, presented as the token part of a two-part bearer header, is
accepted by get_current_user strictly before its expiry and yields the
original user_id and email; and get_current_user answers 401 for a token
past its expiry, for a token whose signature does not verify under the
server secret, for a missing header, for a header that does not split
into exactly two parts, and for a header whose scheme word is not
case-insensitively bearer. -/
theorem C1_session_guard_roundtrip_and_failures
    (mac : MacFun) (secret : String) (parseTok : ParseFun) (now nowv ttl : Nat) :
    (∀ uid em sch ts h, pySplit h = [sch, ts] → lowerStr sch = "bearer" →
      parseTok ts = some (create_jwt mac secret now { user_id := uid, email := em } ttl) →
      uid ≠ "" → em ≠ "" → nowv < now + ttl * 60 →
      get_current_user mac secret nowv parseTok (some h)
        = .ok { user_id := uid, email := em })
    ∧ (∀ (t : Token) sch ts h, pySplit h = [sch, ts] → parseTok ts = some t →
      t.exp < nowv →
      (get_current_user mac secret nowv parseTok (some h)).status? = some 401)
    ∧ (∀ (t : Token) sch ts h, pySplit h = [sch, ts] → parseTok ts = some t →
      t.sig ≠ mac secret t.user_id t.email t.exp →
      (get_current_user mac secret nowv parseTok (some h)).status? = some 401)
    ∧ ((get_current_user mac secret nowv parseTok none).status? = some 401)
    ∧ (∀ h, (pySplit h).length ≠ 2 →
      (get_current_user mac secret nowv parseTok (some h)).status? = some 401)
    ∧ (∀ sch ts h, pySplit h = [sch, ts] → lowerStr sch ≠ "bearer" →
      (get_current_user mac secret nowv parseTok (some h)).status? = some 401) := by
  have hnonempty : ∀ (sch ts h : String), pySplit h = [sch, ts] → h ≠ "" := by
    intro sch ts h hsp h0
    rw [h0] at hsp
    simp [pySplit, splitWsAux] at hsp
  refine ⟨?_, ?_, ?_, rfl, ?_, ?_⟩
  · intro uid em sch ts h hsp hlow hpt huid hem hlt
    have h0 : ¬ (h = "") := hnonempty sch ts h hsp
    have hnl : ¬ (now + ttl * 60 ≤ nowv) := by omega
    have hd : decode_jwt mac secret nowv
        (create_jwt mac secret now { user_id := uid, email := em } ttl)
        = some { user_id := uid, email := em } := by
      unfold decode_jwt create_jwt
      rw [if_pos rfl, if_neg hnl]
    unfold get_current_user
    dsimp only
    rw [if_neg h0, hsp]
    dsimp only
    rw [hlow, if_neg (by simp), hpt]
    dsimp only
    rw [hd]
    dsimp only
    rw [if_neg (by simp [huid, hem])]
  · intro t sch ts h hsp hpt hexp
    have h0 : ¬ (h = "") := hnonempty sch ts h hsp
    have hd : decode_jwt mac secret nowv t = none := by
      unfold decode_jwt
      by_cases hs : t.sig = mac secret t.user_id t.email t.exp
      · rw [if_pos hs, if_pos (le_of_lt hexp)]
      · rw [if_neg hs]
    unfold get_current_user
    dsimp only
    rw [if_neg h0, hsp]
    dsimp only
    by_cases hb : lowerStr sch ≠ "bearer"
    · rw [if_pos hb]
      rfl
    · rw [if_neg hb, hpt]
      dsimp only
      rw [hd]
      rfl
  · intro t sch ts h hsp hpt hsig
    have h0 : ¬ (h = "") := hnonempty sch ts h hsp
    have hd : decode_jwt mac secret nowv t = none := by
      unfold decode_jwt
      rw [if_neg hsig]
    unfold get_current_user
    dsimp only
    rw [if_neg h0, hsp]
    dsimp only
    by_cases hb : lowerStr sch ≠ "bearer"
    · rw [if_pos hb]
      rfl
    · rw [if_neg hb, hpt]
      dsimp only
      rw [hd]
      rfl
  · intro h hlen
    exact auth_header_parts_ne_two_401 mac secret nowv parseTok h hlen
  · intro sch ts h hsp hb
    have h0 : ¬ (h = "") := hnonempty sch ts h hsp
    unfold get_current_user
    dsimp only
    rw [if_neg h0, hsp]
    dsimp only
    rw [if_pos hb]
    rfl

/-- C1 witness: with a concrete token under secret "k1" (issued at 0,
ttl 60 minutes), the guard accepts it at time 100 and returns the
original claims; it answers 401 at time 99999 (past expiry), for a
tampered signature, for a missing header, for a one-part header, and for
a wrong scheme word. -/
theorem C1_session_guard_roundtrip_and_failures_witness :
    get_current_user macSig "k1" 100 ptokC1 (some "Bearer tkn1")
      = .ok { user_id := "u1", email := "a@b.c" }
    ∧ (get_current_user macSig "k1" 99999 ptokC1 (some "Bearer tkn1")).status? = some 401
    ∧ (get_current_user macSig "k1" 100 ptokC1 (some "Bearer bad1")).status? = some 401
    ∧ (get_current_user macSig "k1" 100 ptokC1 none).status? = some 401
    ∧ (get_current_user macSig "k1" 100 ptokC1 (some "Bearer")).status? = some 401
    ∧ (get_current_user macSig "k1" 100 ptokC1 (some "Basic tkn1")).status? = some 401 := by
  refine ⟨?_, ?_, ?_, ?_, ?_, ?_⟩
  · exact (C1_session_guard_roundtrip_and_failures macSig "k1" ptokC1 0 100 60).1
      "u1" "a@b.c" "Bearer" "tkn1" "Bearer tkn1"
      (by decide) (by decide) (by decide) (by decide) (by decide) (by decide)
  · exact (C1_session_guard_roundtrip_and_failures macSig "k1" ptokC1 0 99999 60).2.1
      tokC1 "Bearer" "tkn1" "Bearer tkn1" (by decide) (by decide) (by decide)
  · exact (C1_session_guard_roundtrip_and_failures macSig "k1" ptokC1 0 100 60).2.2.1
      badTokC1 "Bearer" "bad1" "Bearer bad1" (by decide) (by decide) (by decide)
  · exact (C1_session_guard_roundtrip_and_failures macSig "k1" ptokC1 0 100 60).2.2.2.1
  · exact (C1_session_guard_roundtrip_and_failures macSig "k1" ptokC1 0 100 60).2.2.2.2.1
      "Bearer" (by decide)
  · exact (C1_session_guard_roundtrip_and_failures macSig "k1" ptokC1 0 100 60).2.2.2.2.2
      "Basic" "tkn1" "Basic tkn1" (by decide) (by decide)

/-- C9: when the session guard rejects the request, the conversations
endpoint returns exactly that error — which always carries status 401 —
and no conversation data, with the store untouched; when the guard
accepts, the returned items are exactly the conversations whose user_id
equals the caller's token user_id, sorted by updated_at descending, and
the store is untouched. -/
theorem C9_conversations_scoped_and_sorted
    (mac : MacFun) (secret : String) (now : Nat) (parseTok : ParseFun) (s : Store) :
    (∀ auth st d, get_current_user mac secret now parseTok auth = .err st d →
      list_conversations mac secret now parseTok s auth = (.err st d, s) ∧ st = 401)
    ∧ (∀ auth p items, get_current_user mac secret now parseTok auth = .ok p →
      (list_conversations mac secret now parseTok s auth).1 = .ok items →
      (∀ x ∈ items, x.user_id = p.user_id)
      ∧ items.Pairwise (fun a b => b.updated_at ≤ a.updated_at)
      ∧ (∀ x, x ∈ items ↔
          x ∈ (s.conversations.filter (fun c => c.user_id == p.user_id)).map convToOut)
      ∧ (list_conversations mac secret now parseTok s auth).2 = s) := by
  constructor
  · intro auth st d hgcu
    constructor
    · simp only [list_conversations, hgcu]
    · exact get_current_user_err_status mac secret now parseTok auth st d hgcu
  · intro auth p items hgcu hres
    simp only [list_conversations, hgcu] at hres ⊢
    have hitems : items
        = (sortUpdatedDesc (s.conversations.filter (fun c => c.user_id == p.user_id))).map
            convToOut := by
      injection hres with hres
      exact hres.symm
    subst hitems
    refine ⟨?_, ?_, ?_, by trivial⟩
    · intro x hx
      rcases List.mem_map.1 hx with ⟨c, hc, rfl⟩
      have hcf := (mem_sortUpdatedDesc c _).1 hc
      have := (List.mem_filter.1 hcf).2
      have huid : c.user_id = p.user_id := by
        exact beq_iff_eq.1 this
      exact huid
    · exact List.pairwise_map.2 (pairwise_sortUpdatedDesc _)
    · intro x
      constructor
      · intro hx
        rcases List.mem_map.1 hx with ⟨c, hc, rfl⟩
        exact List.mem_map.2 ⟨c, (mem_sortUpdatedDesc c _).1 hc, rfl⟩
      · intro hx
        rcases List.mem_map.1 hx with ⟨c, hc, rfl⟩
        exact List.mem_map.2 ⟨c, (mem_sortUpdatedDesc c _).2 hc, rfl⟩

/-- C9 witness: on a concrete store with conversations of two users, a
missing header yields the 401 error with no data, and a valid token for
user "u1" yields exactly u1's conversations in descending update order. -/
theorem C9_conversations_scoped_and_sorted_witness :
    (list_conversations macSig "k9" 100 ptokC9 storeW9 none
        = (.err 401 "Missing Authorization header", storeW9) ∧ (401 : Nat) = 401)
    ∧ ((∀ x ∈ ([{ id := "c3", user_id := "u1", title := "t3", updated_at := 70 },
                 { id := "c1", user_id := "u1", title := "t1", updated_at := 50 }] : List ConvOut),
          x.user_id = "u1")
       ∧ ([{ id := "c3", user_id := "u1", title := "t3", updated_at := 70 },
           { id := "c1", user_id := "u1", title := "t1", updated_at := 50 }] : List ConvOut).Pairwise
            (fun a b => b.updated_at ≤ a.updated_at)
       ∧ (∀ x, x ∈ ([{ id := "c3", user_id := "u1", title := "t3", updated_at := 70 },
                     { id := "c1", user_id := "u1", title := "t1", updated_at := 50 }] : List ConvOut)
            ↔ x ∈ (storeW9.conversations.filter (fun c => c.user_id == "u1")).map convToOut)
       ∧ (list_conversations macSig "k9" 100 ptokC9 storeW9 (some "Bearer tkn9")).2 = storeW9) := by
  constructor
  · exact (C9_conversations_scoped_and_sorted macSig "k9" 100 ptokC9 storeW9).1
      none 401 "Missing Authorization header" (by decide)
  · exact (C9_conversations_scoped_and_sorted macSig "k9" 100 ptokC9 storeW9).2
      (some "Bearer tkn9") { user_id := "u1", email := "a@b.c" }
      [{ id := "c3", user_id := "u1", title := "t3", updated_at := 70 },
       { id := "c1", user_id := "u1", title := "t1", updated_at := 50 }]
      (by decide) (by decide)

/-- The two filters — email match and liveness — commute. -/
theorem latestUnexpired_eq_pick (l : List OtpDoc) (e : String) (now : Nat) :
    latestUnexpired l e now
      = pickLatest ((l.filter (fun r => r.email == e)).filter (unexpiredAt now)) := by
  unfold latestUnexpired findLatestOtp
  rw [List.filter_filter, List.filter_filter]
  congr 1
  apply List.filter_congr
  intro a _
  exact Bool.and_comm _ _

/-- C2 (amended): on a store whose challenges for the email all carry the
5-minute expiry stamped at creation, with pairwise distinct creation
times and a registered user for the email, verify-otp succeeds exactly
when the candidate verifies against the stored hash of the most recently
created unexpired challenge for that email — where a challenge counts as
unexpired up to and including its expiry instant (it is expired only
strictly after it) — and after a successful verification the user record
for the email has is_verified true. -/
theorem C2_verify_otp_success_iff_latest_unexpired_match
    (verifyF : VerifyFun) (mac : MacFun) (secret : String) (s : Store)
    (email otp : String) (now : Nat)
    (hwf : ∀ r ∈ s.otp_codes, r.email = email → r.expires_at = some (r.created_at + 300))
    (hdist : (s.otp_codes.filter (fun r => r.email == email)).Pairwise
      (fun a b => a.created_at ≠ b.created_at))
    (huser : (findUserByEmail s.users email).isSome = true) :
    ((verify_otp verifyF mac secret s email otp now).1.isOk = true ↔
      (∃ r, latestUnexpired s.otp_codes email now = some r
        ∧ verifyF otp (r.otp.getD "") = some true))
    ∧ ((verify_otp verifyF mac secret s email otp now).1.isOk = true →
      ∃ u, findUserByEmail (verify_otp verifyF mac secret s email otp now).2.users email
        = some u ∧ u.is_verified = true) := by
  have hcomm := latestUnexpired_eq_pick s.otp_codes email now
  cases hpl : pickLatest (s.otp_codes.filter (fun r => r.email == email)) with
  | none =>
    have hfl : findLatestOtp s.otp_codes email = none := hpl
    have hFnil : s.otp_codes.filter (fun r => r.email == email) = [] :=
      (pickLatest_none_iff _).1 hpl
    have hlu : latestUnexpired s.otp_codes email now = none := by
      rw [hcomm, hFnil]
      rfl
    constructor
    · constructor
      · intro hok
        simp only [verify_otp, hfl] at hok
        exact absurd hok (by decide)
      · rintro ⟨r, hr, _⟩
        rw [hlu] at hr
        exact Option.noConfusion hr
    · intro hok
      simp only [verify_otp, hfl] at hok
      exact absurd hok (by decide)
  | some r0 =>
    have hfl : findLatestOtp s.otp_codes email = some r0 := hpl
    have hr0F : r0 ∈ s.otp_codes.filter (fun r => r.email == email) :=
      pickLatest_mem _ _ hpl
    have hr0mem : r0 ∈ s.otp_codes := (List.mem_filter.1 hr0F).1
    have hr0em : r0.email = email := beq_iff_eq.1 (List.mem_filter.1 hr0F).2
    have hr0exp : r0.expires_at = some (r0.created_at + 300) := hwf r0 hr0mem hr0em
    by_cases hexp : r0.created_at + 300 < now
    · have hex : otpExpiredAt now r0 = true := by
        simp [otpExpiredAt, hr0exp, hexp]
      have hnil : (s.otp_codes.filter
          (fun r => r.email == email)).filter (unexpiredAt now) = [] := by
        rw [List.filter_eq_nil_iff]
        intro x hx
        have hxmem : x ∈ s.otp_codes := (List.mem_filter.1 hx).1
        have hxem : x.email = email := beq_iff_eq.1 (List.mem_filter.1 hx).2
        have hxexp : x.expires_at = some (x.created_at + 300) := hwf x hxmem hxem
        have hxle : x.created_at ≤ r0.created_at := pickLatest_max _ _ hpl x hx
        simp only [unexpiredAt, hxexp, decide_eq_true_eq]
        omega
      have hlu : latestUnexpired s.otp_codes email now = none := by
        rw [hcomm, hnil]
        rfl
      constructor
      · constructor
        · intro hok
          simp only [verify_otp, hfl, hex, if_true] at hok
          exact absurd hok (by decide)
        · rintro ⟨r, hr, _⟩
          rw [hlu] at hr
          exact Option.noConfusion hr
      · intro hok
        simp only [verify_otp, hfl, hex, if_true] at hok
        exact absurd hok (by decide)
    · have hex : otpExpiredAt now r0 = false := by
        simp only [otpExpiredAt, hr0exp, decide_eq_false_iff_not]
        omega
      have hlu : latestUnexpired s.otp_codes email now = some r0 := by
        rw [hcomm]
        apply pickLatest_uniq
        · refine List.mem_filter.2 ⟨hr0F, ?_⟩
          simp only [unexpiredAt, hr0exp, decide_eq_true_eq]
          omega
        · intro x hx
          have hxF : x ∈ s.otp_codes.filter (fun r => r.email == email) :=
            (List.mem_filter.1 hx).1
          have hxle : x.created_at ≤ r0.created_at := pickLatest_max _ _ hpl x hxF
          by_cases hxeq : x = r0
          · exact Or.inl hxeq
          · refine Or.inr (lt_of_le_of_ne hxle ?_)
            have hsym : Symmetric (fun (a b : OtpDoc) => a.created_at ≠ b.created_at) := by
              intro a b hab
              exact Ne.symm hab
            exact List.Pairwise.forall hsym hdist hxF hr0F hxeq
      cases hv : verifyF otp (r0.otp.getD "") with
      | none =>
        constructor
        · constructor
          · intro hok
            simp only [verify_otp, hfl, hex, Bool.false_eq_true, if_false, hv] at hok
            exact absurd hok (by decide)
          · rintro ⟨r, hr, hvr⟩
            rw [hlu] at hr
            injection hr with hreq
            subst hreq
            rw [hv] at hvr
            exact Option.noConfusion hvr
        · intro hok
          simp only [verify_otp, hfl, hex, Bool.false_eq_true, if_false, hv] at hok
          exact absurd hok (by decide)
      | some b =>
        cases b with
        | false =>
          constructor
          · constructor
            · intro hok
              simp only [verify_otp, hfl, hex, Bool.false_eq_true, if_false, hv] at hok
              exact absurd hok (by decide)
            · rintro ⟨r, hr, hvr⟩
              rw [hlu] at hr
              injection hr with hreq
              subst hreq
              rw [hv] at hvr
              injection hvr with hvr
              exact Bool.noConfusion hvr
          · intro hok
            simp only [verify_otp, hfl, hex, Bool.false_eq_true, if_false, hv] at hok
            exact absurd hok (by decide)
        | true =>
          rcases Option.isSome_iff_exists.1 huser with ⟨u0, hu0⟩
          have hu2 : findUserByEmail (markVerifiedFirst s.users email now) email
              = some { u0 with is_verified := true, updated_at := now } :=
            markVerifiedFirst_find s.users email now u0 hu0
          constructor
          · constructor
            · intro _
              exact ⟨r0, hlu, hv⟩
            · intro _
              simp only [verify_otp, hfl, hex, Bool.false_eq_true, if_false, hv, hu2]
              rfl
          · intro _
            refine ⟨{ u0 with is_verified := true, updated_at := now }, ?_, rfl⟩
            simp only [verify_otp, hfl, hex, Bool.false_eq_true, if_false, hv, hu2]

/-- C2 witness: on a concrete store with one registered user and one live
challenge, at time 100 the success-iff equivalence and the verified-flag
consequence hold with all hypotheses discharged. -/
theorem C2_verify_otp_success_iff_latest_unexpired_match_witness :
    ((verify_otp bverify macSig "k2" storeW2 "b@x.y" "123456" 100).1.isOk = true ↔
      (∃ r, latestUnexpired storeW2.otp_codes "b@x.y" 100 = some r
        ∧ bverify "123456" (r.otp.getD "") = some true))
    ∧ ((verify_otp bverify macSig "k2" storeW2 "b@x.y" "123456" 100).1.isOk = true →
      ∃ u, findUserByEmail
          (verify_otp bverify macSig "k2" storeW2 "b@x.y" "123456" 100).2.users "b@x.y"
        = some u ∧ u.is_verified = true) :=
  C2_verify_otp_success_iff_latest_unexpired_match bverify macSig "k2" storeW2
    "b@x.y" "123456" 100 (by decide) (by decide) (by decide)

/-- C2 counterexample: at current time exactly equal to the only
challenge's expiry, the claim's reading of unexpired (current time
strictly before expiry, from "Expired if current time ≥ expiry") leaves
no unexpired challenge for the email, yet verify-otp succeeds with the
correct code — refuting the success-iff-match-against-unexpired claim as
stated. -/
theorem C2_counterexample_boundary_success_without_strict_unexpired :
    (verify_otp bverify macSig "k2x" storeC2x "m@n.o" "123456" 500).1.isOk = true
    ∧ latestUnexpiredStrict storeC2x.otp_codes "m@n.o" 500 = none := by
  decide
